import Mathlib

/-!
# evlog: a one-shot Windows event-log emitter

A shallow embedding of `main.go`: the configuration merge (`initConfig`), the
message formatter (`NewMsg`), the event-log facade (`New`, `Close`,
`WindowsLogger.send` and the twelve emission operations) and `main`.

The program talks to three collaborators that are not part of the repository:
the platform event log (`eventlog.InstallAsEventCreate`, `eventlog.Open`,
`Log.Error/Warning/Info`, `eventlog.Remove`), Go channels, and the `fmt` and
`time` packages.  They are modelled as follows.

* Every platform call is appended to a trace kept in `World`; its result
  (nil or an error) is read from a `Platform` oracle that sees the trace so
  far and the call.
* A channel is described by its capacity, the number of queued values, and
  whether a receiver is ready.  A send that cannot proceed parks the (only)
  goroutine for good: the procedure yields `Result.blocked` and nothing after
  the send runs, deferred calls included.  The Go runtime then finds every
  goroutine asleep and ends the process with status 2 (`exitStatus`).
* `log.Fatal`/`log.Fatalf` end the process with status 1
  (`Result.exited 1`); output written to standard error is not modelled.
* `fmt.Sprint`, `fmt.Sprintf` and `time.Time.Format` are modelled on a
  fragment of their behaviour, described at each definition.
-/

namespace Evlog

/-! ## Values of the Go program -/

/-- A non-nil Go `error`, identified by its message.  A nil error is `none`
in `Option GoError`. -/
abbrev GoError := String

/-- The event types of package `eventlog`. -/
inductive Severity
  | Error
  | Warning
  | Info
  deriving DecidableEq, Repr

/-- The numeric value of an event type: `eventlog.Error = 1`,
`eventlog.Warning = 2`, `eventlog.Info = 4`. -/
def Severity.mask : Severity → Nat
  | .Error => 1
  | .Warning => 2
  | .Info => 4

/-- Whether the bit mask `eventsSupported` given to the install call
contains the event type `s`. -/
def allows (eventsSupported : Nat) (s : Severity) : Bool :=
  eventsSupported &&& s.mask != 0

/-- One call made to the platform event log. -/
inductive PlatformCall
  | install (name : String) (eventsSupported : Nat)
  | openSource (name : String)
  | write (source : String) (sev : Severity) (eid : Nat) (msg : String)
  | remove (name : String)
  deriving DecidableEq, Repr

/-- The platform: given the calls made so far and the call being made, the
error it returns (`none` for success). -/
abbrev Platform := List PlatformCall → PlatformCall → Option GoError

/-- What the program has done to its environment: the platform calls made, in
order, and the errors sent on the error channel, in order. -/
structure World where
  calls : List PlatformCall
  sent : List GoError
  deriving DecidableEq, Repr

/-- How a procedure ends: it returns a value, the process exits with a status
(`os.Exit`, reached through `log.Fatal` or `flag.Parse`), or the goroutine is
parked for good on a channel operation and never returns. -/
inductive Result (α : Type)
  | returned (a : α)
  | exited (code : Nat)
  | blocked
  deriving DecidableEq, Repr

/-- Make one platform call: record it and read its result from the
platform. -/
def platformCall (p : Platform) (c : PlatformCall) (w : World) :
    World × Option GoError :=
  ({ w with calls := w.calls ++ [c] }, p w.calls c)

/-- A channel of errors as seen by a sender: the buffer capacity
(0 for `make(chan error)`), the number of values queued in the buffer, and
whether a receiver is waiting. -/
structure Chan where
  capacity : Nat
  queued : Nat
  receiverReady : Bool
  deriving DecidableEq, Repr

/-- A send proceeds when a receiver is ready or the buffer has room. -/
def Chan.accepts (ch : Chan) : Bool :=
  ch.receiverReady || decide (ch.queued < ch.capacity)

/-- The open handle `*eventlog.Log`, identified by the source it writes
to. -/
structure Log where
  source : String
  deriving DecidableEq, Repr

/-- Go `type WindowsLogger struct { ev *eventlog.Log; errs chan<- error }`;
a nil `errs` is `none`. -/
structure WindowsLogger where
  ev : Log
  errs : Option Chan
  deriving DecidableEq, Repr

/-- Go `type Config struct`; the field `Type` is written `Type_` here, `Type`
being reserved. -/
structure Config where
  Name : String
  Keyword : String
  Hostname : String
  Type_ : String
  Id : String
  Msg : String
  deriving DecidableEq, Repr

/-- The six command-line flags; each defaults to the empty string. -/
structure Flags where
  name : String
  keyword : String
  hostname : String
  types : String
  id : String
  msg : String
  deriving DecidableEq, Repr

/-- How `flag.Parse()` ends on the command line of the run.  The flag set is
`flag.CommandLine`, whose error handling is `ExitOnError`: `-h` or `-help`
prints the usage and ends the process with status 0; a command line that
does not parse (a flag that is not defined, a flag without its value) ends
it with status 2; otherwise `Parse` returns and the six flag variables hold
`flags`. -/
inductive FlagParse
  | parsed (flags : Flags)
  | help
  | invalid
  deriving DecidableEq, Repr

/-! ## The platform write methods of `eventlog.Log` -/

/-- Go `(*eventlog.Log).Error(eid, msg)`: one write of type Error. -/
def Log.Error (el : Log) (eid : Nat) (msg : String) (p : Platform) (w : World) :
    World × Option GoError :=
  platformCall p (.write el.source .Error eid msg) w

/-- Go `(*eventlog.Log).Warning(eid, msg)`: one write of type Warning. -/
def Log.Warning (el : Log) (eid : Nat) (msg : String) (p : Platform) (w : World) :
    World × Option GoError :=
  platformCall p (.write el.source .Warning eid msg) w

/-- Go `(*eventlog.Log).Info(eid, msg)`: one write of type Info. -/
def Log.Info (el : Log) (eid : Nat) (msg : String) (p : Platform) (w : World) :
    World × Option GoError :=
  platformCall p (.write el.source .Info eid msg) w

/-! ## Package `fmt` -/

/-- The operands the formatting functions are modelled on: Go strings,
integers and booleans. -/
inductive Value
  | str (s : String)
  | int (i : Int)
  | bool (b : Bool)
  deriving DecidableEq, Repr

/-- The test `reflect.TypeOf(arg).Kind() == reflect.String` of `doPrint`. -/
def Value.isString : Value → Bool
  | .str _ => true
  | _ => false

/-- A Go integer in decimal. -/
def formatInt (i : Int) : List Char :=
  (if i < 0 then ['-'] else []) ++ Nat.toDigits 10 i.natAbs

/-- The name `fmt` prints for the operand's type in a bad-verb report. -/
def Value.typeName : Value → List Char
  | .str _ => "string".toList
  | .int _ => "int".toList
  | .bool _ => "bool".toList

/-- The operand under the verb `v`. -/
def Value.text : Value → List Char
  | .str s => s.toList
  | .int i => formatInt i
  | .bool b => if b then "true".toList else "false".toList

/-- Go `(*pp).printArg(arg, verb)` on the modelled fragment: the verbs `v`, `s`
(strings), `d` (integers) and `t` (booleans) print the operand; any other
pairing is reported the way `badVerb` does, `%!verb(type=value)`.  The
further verbs of `fmt` (`q`, `x`, ...) are outside the fragment. -/
def printArg (arg : Value) (verb : Char) : List Char :=
  let good : Bool :=
    match arg with
    | .str _ => verb == 'v' || verb == 's'
    | .int _ => verb == 'v' || verb == 'd'
    | .bool _ => verb == 'v' || verb == 't'
  if good then arg.text
  else "%!".toList ++ [verb] ++ "(".toList ++ arg.typeName ++ "=".toList ++ arg.text ++ ")".toList

/-- The loop of `(*pp).doPrint`: a space is written between two operands when
neither is a string.  `prevString` and `argNum` are the loop's variables. -/
def doPrint : List Value → Bool → Nat → List Char
  | [], _, _ => []
  | arg :: rest, prevString, argNum =>
    let isString := arg.isString
    (if 0 < argNum && !isString && !prevString then [' '] else [])
      ++ printArg arg 'v' ++ doPrint rest isString (argNum + 1)

/-- Go `fmt.Sprint(a...)`. -/
def Sprint (a : List Value) : String :=
  String.mk (doPrint a false 0)

/-- The report `%!(EXTRA type=value, ...)` that `doPrintf` appends when
operands are left over. -/
def extraArgs : List Value → List Char
  | [] => []
  | a :: rest =>
    "%!(EXTRA ".toList
      ++ (a.typeName ++ '=' :: a.text)
      ++ (rest.map fun b => ", ".toList ++ b.typeName ++ '=' :: b.text).flatten
      ++ [')']

/-- The loop of `(*pp).doPrintf` on the fragment without flags, width,
precision and argument indexes: text up to a `%` is copied; `%%` prints a
percent sign; a `%` that ends the format prints `%!(NOVERB)`; a verb with no
operand left prints `%!verb(MISSING)`; otherwise the next operand is printed
under the verb.  `afterPercent` says that the previous character was the `%`
that opens a directive. -/
def doPrintf : List Char → Bool → List Value → List Char
  | [], false, a => extraArgs a
  | [], true, a => "%!(NOVERB)".toList ++ extraArgs a
  | c :: rest, false, a =>
    if c = '%' then doPrintf rest true a else c :: doPrintf rest false a
  | verb :: rest, true, a =>
    if verb = '%' then '%' :: doPrintf rest false a
    else
      match a with
      | [] => "%!".toList ++ [verb] ++ "(MISSING)".toList ++ doPrintf rest false []
      | arg :: a' => printArg arg verb ++ doPrintf rest false a'

/-- Go `fmt.Sprintf(format, a...)`. -/
def Sprintf (format : String) (a : List Value) : String :=
  String.mk (doPrintf format.toList false a)

/-! ## Package `time` -/

/-- Go `time.Month`. -/
inductive Month
  | January | February | March | April | May | June
  | July | August | September | October | November | December
  deriving DecidableEq, Repr

/-- The number of the month, 1 to 12. -/
def Month.number : Month → Nat
  | .January => 1 | .February => 2 | .March => 3 | .April => 4
  | .May => 5 | .June => 6 | .July => 7 | .August => 8
  | .September => 9 | .October => 10 | .November => 11 | .December => 12

/-- Go `Month.String()`, the entries of `longMonthNames`. -/
def Month.name : Month → List Char
  | .January => "January".toList | .February => "February".toList
  | .March => "March".toList | .April => "April".toList
  | .May => "May".toList | .June => "June".toList
  | .July => "July".toList | .August => "August".toList
  | .September => "September".toList | .October => "October".toList
  | .November => "November".toList | .December => "December".toList

/-- The reading of the local clock that `time.Now()` returns, broken down
into the fields `Format` prints. -/
structure Time where
  year : Int
  month : Month
  day : Nat
  yday : Nat
  hour : Nat
  minute : Nat
  second : Nat
  deriving DecidableEq, Repr

/-- Go `appendInt(b, x, width)`: `x` in decimal, padded with zeros to `width`
digits, after a minus sign when negative. -/
def appendInt (x : Int) (width : Nat) : List Char :=
  let digits := Nat.toDigits 10 x.natAbs
  (if x < 0 then ['-'] else []) ++ List.replicate (width - digits.length) '0' ++ digits

/-- The standard chunks of a layout that are modelled (the constants
`stdLongMonth` ... of package `time`). -/
inductive Std
  | stdLongMonth | stdMonth | stdNumMonth | stdZeroMonth
  | stdDay | stdUnderDay | stdZeroDay | stdUnderYearDay | stdZeroYearDay
  | stdHour | stdHour12 | stdZeroHour12
  | stdMinute | stdZeroMinute | stdSecond | stdZeroSecond
  | stdLongYear | stdYear
  deriving DecidableEq, Repr

/-- Whether the layout text `l` begins with the text `s`. -/
def startsWith (s : String) (l : List Char) : Bool :=
  s.toList.isPrefixOf l

/-- Go `startsWithLowerCase(str)`. -/
def startsWithLowerCase : List Char → Bool
  | [] => false
  | c :: _ => decide ('a' ≤ c) && decide (c ≤ 'z')

/-- One step of the scan in `nextStdChunk`, at the position where `l`
begins: the literal text to copy, the standard chunk found, and the number
of layout characters used up; `none` when no chunk starts here and the
scan moves on by one character.  The cases are those of the switch on the
first character for `J`, `0`, `1`, `2`, `_`, `3`, `4` and `5`; the chunks that
start with `M`, `P`, `p`, `-`, `Z`, `.` or `,` (weekday, zone, half-day and
fractional second) are not modelled and such characters are literal text. -/
def stdAt (l : List Char) : Option (List Char × Std × Nat) :=
  if startsWith "Jan" l then
    if startsWith "January" l then some ([], .stdLongMonth, 7)
    else if !startsWithLowerCase (l.drop 3) then some ([], .stdMonth, 3)
    else none
  else if startsWith "01" l then some ([], .stdZeroMonth, 2)
  else if startsWith "02" l then some ([], .stdZeroDay, 2)
  else if startsWith "03" l then some ([], .stdZeroHour12, 2)
  else if startsWith "04" l then some ([], .stdZeroMinute, 2)
  else if startsWith "05" l then some ([], .stdZeroSecond, 2)
  else if startsWith "06" l then some ([], .stdYear, 2)
  else if startsWith "002" l then some ([], .stdZeroYearDay, 3)
  else if startsWith "15" l then some ([], .stdHour, 2)
  else if startsWith "1" l then some ([], .stdNumMonth, 1)
  else if startsWith "2006" l then some ([], .stdLongYear, 4)
  else if startsWith "2" l then some ([], .stdDay, 1)
  else if startsWith "_2006" l then some (['_'], .stdLongYear, 5)
  else if startsWith "_2" l then some ([], .stdUnderDay, 2)
  else if startsWith "__2" l then some ([], .stdUnderYearDay, 3)
  else if startsWith "3" l then some ([], .stdHour12, 1)
  else if startsWith "4" l then some ([], .stdMinute, 1)
  else if startsWith "5" l then some ([], .stdSecond, 1)
  else none

/-- The hour on the twelve-hour clock. -/
def hour12 (hour : Nat) : Nat :=
  if hour % 12 = 0 then 12 else hour % 12

/-- What `AppendFormat` writes for one standard chunk. -/
def Time.chunk (t : Time) : Std → List Char
  | .stdLongMonth => t.month.name
  | .stdMonth => t.month.name.take 3
  | .stdNumMonth => appendInt t.month.number 0
  | .stdZeroMonth => appendInt t.month.number 2
  | .stdDay => appendInt t.day 0
  | .stdUnderDay => (if t.day < 10 then [' '] else []) ++ appendInt t.day 0
  | .stdZeroDay => appendInt t.day 2
  | .stdUnderYearDay =>
    (if t.yday < 100 then [' '] else []) ++ (if t.yday < 10 then [' '] else [])
      ++ appendInt t.yday 0
  | .stdZeroYearDay => appendInt t.yday 3
  | .stdHour => appendInt t.hour 2
  | .stdHour12 => appendInt (hour12 t.hour) 0
  | .stdZeroHour12 => appendInt (hour12 t.hour) 2
  | .stdMinute => appendInt t.minute 0
  | .stdZeroMinute => appendInt t.minute 2
  | .stdSecond => appendInt t.second 0
  | .stdZeroSecond => appendInt t.second 2
  | .stdLongYear => appendInt t.year 4
  | .stdYear => appendInt (t.year.natAbs % 100) 2

/-- The loop of `Time.AppendFormat` over the layout, left to right: where a
standard chunk starts its rendering is written and the chunk is skipped,
any other character is copied.  `skip` counts the characters of the current
chunk still to be passed over. -/
def Time.appendFormat (t : Time) : List Char → Nat → List Char
  | [], _ => []
  | _ :: rest, skip + 1 => t.appendFormat rest skip
  | c :: rest, 0 =>
    match stdAt (c :: rest) with
    | some (lit, std, used) => lit ++ t.chunk std ++ t.appendFormat rest (used - 1)
    | none => c :: t.appendFormat rest 0

/-- Go `Time.Format(layout)`. -/
def Time.Format (t : Time) (layout : String) : String :=
  String.mk (t.appendFormat layout.toList 0)

/-! ## `main.go` -/

/-- Go `initConfig`: `file` is what `toml.DecodeFile("config.toml", &c)` yields,
the decoded `c` or an error; `commandLine` is how `flag.Parse()` ends.  A
decoding error is fatal (`log.Fatal`, status 1).  Then `flag.Parse()` runs and
may end the process (status 0 for help, 2 for a command line that does not
parse).  Otherwise each non-empty flag replaces its field, in the order of
the source. -/
def initConfig (file : Except GoError Config) (commandLine : FlagParse) : Result Config :=
  match file with
  | .error _ => .exited 1
  | .ok c =>
    match commandLine with
    | .help => .exited 0
    | .invalid => .exited 2
    | .parsed flags =>
      let c := if flags.keyword ≠ "" then { c with Keyword := flags.keyword } else c
      let c := if flags.name ≠ "" then { c with Name := flags.name } else c
      let c := if flags.hostname ≠ "" then { c with Hostname := flags.hostname } else c
      let c := if flags.types ≠ "" then { c with Type_ := flags.types } else c
      let c := if flags.id ≠ "" then { c with Id := flags.id } else c
      let c := if flags.msg ≠ "" then { c with Msg := flags.msg } else c
      .returned c

/-- Go `NewMsg`, with the package variable `c` and the clock reading of
`time.Now()` as arguments.  The first operand of `Sprintf` is written
`c.keyword` in the source.  `Config` declares `Keyword` and no `keyword`, so
the source does not say what that operand is (as written the file is refused
by the compiler); it is the argument `keyword` here, left open, and is not
read from `c`.  The other four operands are the fields the source names. -/
def NewMsg (keyword : String) (c : Config) (now : Time) : String :=
  let format := now.Format "%s 2006 Jan 02 15:04:05 %s %s %s %s"
  Sprintf format [.str keyword, .str c.Hostname, .str c.Type_, .str c.Id, .str c.Msg]

/-- Go `New(name)`: install the source for Error, Warning and Info, open it,
and attach a fresh channel `make(chan<- error)`: unbuffered, with no value
queued, and with no receiver (nothing but the logger holds it, and it is
send-only).  A failed install or open is fatal (`log.Fatalf`, status 1). -/
def New (name : String) (p : Platform) (w : World) : World × Result WindowsLogger :=
  match platformCall p
      (.install name (Severity.Error.mask ||| Severity.Warning.mask ||| Severity.Info.mask)) w with
  | (w, some _) => (w, .exited 1)
  | (w, none) =>
    match platformCall p (.openSource name) w with
    | (w, some _) => (w, .exited 1)
    | (w, none) =>
      let el : Log := { source := name }
      let errs : Chan := { capacity := 0, queued := 0, receiverReady := false }
      (w, .returned { ev := el, errs := some errs })

/-- Go `Close(name)`: remove the source; a failure is fatal (`log.Fatalf`,
status 1). -/
def Close (name : String) (p : Platform) (w : World) : World × Result Unit :=
  match platformCall p (.remove name) w with
  | (w, some _) => (w, .exited 1)
  | (w, none) => (w, .returned ())

/-- Go `(l WindowsLogger) send(err)`: nil is returned as it is; otherwise the
error is sent on `l.errs` when that is not nil, and then returned.  The send
parks the goroutine when the channel does not accept it. -/
def WindowsLogger.send (l : WindowsLogger) (err : Option GoError) (w : World) :
    World × Result (Option GoError) :=
  match err with
  | none => (w, .returned none)
  | some e =>
    match l.errs with
    | none => (w, .returned (some e))
    | some ch =>
      if ch.accepts then ({ w with sent := w.sent ++ [e] }, .returned (some e))
      else (w, .blocked)

/-- Method `Error` logs an error message. -/
def WindowsLogger.Error (l : WindowsLogger) (v : List Value) (p : Platform) (w : World) :
    World × Result (Option GoError) :=
  let (w, err) := l.ev.Error 3 (Sprint v) p w
  l.send err w

/-- Method `Warning` logs a warning message. -/
def WindowsLogger.Warning (l : WindowsLogger) (v : List Value) (p : Platform) (w : World) :
    World × Result (Option GoError) :=
  let (w, err) := l.ev.Warning 2 (Sprint v) p w
  l.send err w

/-- Method `Info` logs an info message. -/
def WindowsLogger.Info (l : WindowsLogger) (v : List Value) (p : Platform) (w : World) :
    World × Result (Option GoError) :=
  let (w, err) := l.ev.Info 1 (Sprint v) p w
  l.send err w

/-- Method `Errorf` logs an error message. -/
def WindowsLogger.Errorf (l : WindowsLogger) (format : String) (a : List Value)
    (p : Platform) (w : World) : World × Result (Option GoError) :=
  let (w, err) := l.ev.Error 3 (Sprintf format a) p w
  l.send err w

/-- Method `Warningf` logs a warning message. -/
def WindowsLogger.Warningf (l : WindowsLogger) (format : String) (a : List Value)
    (p : Platform) (w : World) : World × Result (Option GoError) :=
  let (w, err) := l.ev.Warning 2 (Sprintf format a) p w
  l.send err w

/-- Method `Infof` logs an info message. -/
def WindowsLogger.Infof (l : WindowsLogger) (format : String) (a : List Value)
    (p : Platform) (w : World) : World × Result (Option GoError) :=
  let (w, err) := l.ev.Info 1 (Sprintf format a) p w
  l.send err w

/-- Method `NError` logs an error message and an event ID. -/
def WindowsLogger.NError (l : WindowsLogger) (eventID : Nat) (v : List Value)
    (p : Platform) (w : World) : World × Result (Option GoError) :=
  let (w, err) := l.ev.Error eventID (Sprint v) p w
  l.send err w

/-- Method `NWarning` logs a warning message and an event ID. -/
def WindowsLogger.NWarning (l : WindowsLogger) (eventID : Nat) (v : List Value)
    (p : Platform) (w : World) : World × Result (Option GoError) :=
  let (w, err) := l.ev.Warning eventID (Sprint v) p w
  l.send err w

/-- Method `NInfo` logs an info message and an event ID. -/
def WindowsLogger.NInfo (l : WindowsLogger) (eventID : Nat) (v : List Value)
    (p : Platform) (w : World) : World × Result (Option GoError) :=
  let (w, err) := l.ev.Info eventID (Sprint v) p w
  l.send err w

/-- Method `NErrorf` logs an error message and an event ID. -/
def WindowsLogger.NErrorf (l : WindowsLogger) (eventID : Nat) (format : String)
    (a : List Value) (p : Platform) (w : World) : World × Result (Option GoError) :=
  let (w, err) := l.ev.Error eventID (Sprintf format a) p w
  l.send err w

/-- Method `NWarningf` logs a warning message and an event ID. -/
def WindowsLogger.NWarningf (l : WindowsLogger) (eventID : Nat) (format : String)
    (a : List Value) (p : Platform) (w : World) : World × Result (Option GoError) :=
  let (w, err) := l.ev.Warning eventID (Sprintf format a) p w
  l.send err w

/-- Method `NInfof` logs an info message and an event ID. -/
def WindowsLogger.NInfof (l : WindowsLogger) (eventID : Nat) (format : String)
    (a : List Value) (p : Platform) (w : World) : World × Result (Option GoError) :=
  let (w, err) := l.ev.Info eventID (Sprintf format a) p w
  l.send err w

/-- One call of an emission operation, with its arguments. -/
inductive Emit
  | Error (v : List Value)
  | Warning (v : List Value)
  | Info (v : List Value)
  | Errorf (format : String) (a : List Value)
  | Warningf (format : String) (a : List Value)
  | Infof (format : String) (a : List Value)
  | NError (eventID : Nat) (v : List Value)
  | NWarning (eventID : Nat) (v : List Value)
  | NInfo (eventID : Nat) (v : List Value)
  | NErrorf (eventID : Nat) (format : String) (a : List Value)
  | NWarningf (eventID : Nat) (format : String) (a : List Value)
  | NInfof (eventID : Nat) (format : String) (a : List Value)
  deriving DecidableEq, Repr

/-- Perform the call on the logger `l`. -/
def Emit.run (l : WindowsLogger) (p : Platform) (w : World) :
    Emit → World × Result (Option GoError)
  | .Error v => l.Error v p w
  | .Warning v => l.Warning v p w
  | .Info v => l.Info v p w
  | .Errorf format a => l.Errorf format a p w
  | .Warningf format a => l.Warningf format a p w
  | .Infof format a => l.Infof format a p w
  | .NError eventID v => l.NError eventID v p w
  | .NWarning eventID v => l.NWarning eventID v p w
  | .NInfo eventID v => l.NInfo eventID v p w
  | .NErrorf eventID format a => l.NErrorf eventID format a p w
  | .NWarningf eventID format a => l.NWarningf eventID format a p w
  | .NInfof eventID format a => l.NInfof eventID format a p w

/-- What one run of the program is given: the outcome of decoding
`config.toml`, the outcome of `flag.Parse()`, the operand `keyword` of `NewMsg`
(see there), the clock and the platform. -/
structure Env where
  file : Except GoError Config
  flags : FlagParse
  keyword : String
  now : Time
  platform : Platform

/-- The world before the program has done anything. -/
def World.init : World :=
  { calls := [], sent := [] }

/-- Go `main`.  `initConfig` yields the configuration or ends the process.
`New` yields the logger or ends the process.  From then on `Close(c.Name)`
is deferred: it runs when `main` returns, and does not run when the
process is ended or `main` is parked inside `logger.Error`.  The value `logger.Error`
returns is dropped.  `Result.returned ()` is the return of `main`, after
which the process exits with status 0. -/
def main (env : Env) : World × Result Unit :=
  match initConfig env.file env.flags with
  | .exited code => (World.init, .exited code)
  | .blocked => (World.init, .blocked)
  | .returned c =>
    match New c.Name env.platform World.init with
    | (w, .exited code) => (w, .exited code)
    | (w, .blocked) => (w, .blocked)
    | (w, .returned logger) =>
      match logger.Error [.str (NewMsg env.keyword c env.now)] env.platform w with
      | (w, .exited code) => (w, .exited code)
      | (w, .blocked) => (w, .blocked)
      | (w, .returned _) => Close c.Name env.platform w

/-- The exit status of the process for an outcome of `main`: 0 when `main`
returns, the status given to `os.Exit` when the process is ended that way,
and 2 when `main`, the only goroutine, is parked for good (the runtime reports
`all goroutines are asleep - deadlock!` and ends the process with status 2,
running no deferred call). -/
def exitStatus : Result Unit → Option Nat
  | .returned _ => some 0
  | .exited code => some code
  | .blocked => some 2

/-- The number of calls in a trace that remove the source `name`. -/
def removals (name : String) (calls : List PlatformCall) : Nat :=
  calls.count (.remove name)

/-- The event identifiers of the write calls in a trace, in order. -/
def eventIDs (calls : List PlatformCall) : List Nat :=
  calls.filterMap fun c =>
    match c with
    | .write _ _ eid _ => some eid
    | _ => none

/-- The severity family an emission operation belongs to by its name:
Error for `Error`, `Errorf`, `NError`, `NErrorf`, and likewise for Warning
and Info. -/
def Emit.severity : Emit → Severity
  | .Error _ | .Errorf _ _ | .NError _ _ | .NErrorf _ _ _ => .Error
  | .Warning _ | .Warningf _ _ | .NWarning _ _ | .NWarningf _ _ _ => .Warning
  | .Info _ | .Infof _ _ | .NInfo _ _ | .NInfof _ _ _ => .Info

/-! ## Reference renderings the claims are stated against -/

/-- The characters `Format` writes for the layout `2006 Jan 02 15:04:05`. -/
def Time.stamp (t : Time) : List Char :=
  appendInt t.year 4 ++ ' ' :: t.month.name.take 3 ++ ' ' :: appendInt t.day 2
    ++ ' ' :: appendInt t.hour 2 ++ ':' :: appendInt t.minute 2 ++ ':' :: appendInt t.second 2

/-- The renderings of the values, one after the other, with nothing in
between. -/
def concatTexts (v : List Value) : String :=
  String.mk (v.map Value.text).flatten

/-- The renderings of the values, one after the other, with one space between
two neighbours exactly when neither of them is a string. -/
def joinChars : List Value → List Char
  | [] => []
  | [a] => a.text
  | a :: b :: rest =>
    a.text ++ (if !a.isString && !b.isString then [' '] else []) ++ joinChars (b :: rest)

/-- The string of `joinChars`. -/
def joinOperands (v : List Value) : String :=
  String.mk (joinChars v)

/-! ## Sample inputs -/

/-- The platform whose writes fail with `access denied` and whose other
calls succeed. -/
def failingWrites : Platform := fun _ c =>
  match c with
  | .write _ _ _ _ => some "access denied"
  | _ => none

/-- No flag given on the command line. -/
def noFlags : Flags :=
  { name := "", keyword := "", hostname := "", types := "", id := "", msg := "" }

/-- A clock reading: 4 November 2026, 09:05:07. -/
def sampleTime : Time :=
  { year := 2026, month := .November, day := 4, yday := 308, hour := 9, minute := 5,
    second := 7 }

/-- A run in which `config.toml` cannot be read. -/
def missingFileEnv : Env :=
  { file := .error "open config.toml: The system cannot find the file specified.",
    flags := .parsed noFlags, keyword := "", now := sampleTime,
    platform := fun _ _ => none }

/-- The configuration of the scenario: Name `svc1`, Msg `boot`. -/
def svc1Config : Config :=
  { Name := "svc1", Keyword := "", Hostname := "", Type_ := "", Id := "", Msg := "boot" }

/-- The scenario in which every platform call succeeds. -/
def svc1Env : Env :=
  { file := .ok svc1Config, flags := .parsed noFlags, keyword := "", now := sampleTime,
    platform := fun _ _ => none }

/-- The scenario in which the platform refuses the write. -/
def svc1FailingEnv : Env :=
  { file := .ok svc1Config, flags := .parsed noFlags, keyword := "", now := sampleTime,
    platform := failingWrites }

/-- The scenario run with `-h` on the command line: the file loads and every
platform call would succeed. -/
def svc1HelpEnv : Env :=
  { file := .ok svc1Config, flags := .help, keyword := "", now := sampleTime,
    platform := fun _ _ => none }

/-- A configuration with all five message fields set. -/
def fullConfig : Config :=
  { Name := "svc1", Keyword := "KW", Hostname := "host", Type_ := "CRITICAL", Id := "42",
    Msg := "boot" }

/-! # Theorems -/

/-! ## The dispatch shared by the twelve operations -/

theorem send_calls (l : WindowsLogger) (err : Option GoError) (w : World) :
    (l.send err w).1.calls = w.calls := by
  unfold WindowsLogger.send
  cases err with
  | none => rfl
  | some e =>
    cases l.errs with
    | none => rfl
    | some ch => by_cases h : ch.accepts = true <;> simp [h]

theorem run_eq_send (op : Emit) (l : WindowsLogger) (p : Platform) (w : World) :
    ∃ eid msg,
      op.run l p w =
        l.send (p w.calls (.write l.ev.source op.severity eid msg))
          { w with calls := w.calls ++ [.write l.ev.source op.severity eid msg] } := by
  cases op <;> exact ⟨_, _, rfl⟩

theorem run_calls (op : Emit) (l : WindowsLogger) (p : Platform) (w : World) :
    ∃ eid msg,
      (op.run l p w).1.calls = w.calls ++ [.write l.ev.source op.severity eid msg] := by
  obtain ⟨eid, msg, h⟩ := run_eq_send op l p w
  exact ⟨eid, msg, by rw [h, send_calls]⟩

theorem send_some_accepting (l : WindowsLogger) (ch : Chan) (e : GoError) (w : World)
    (hch : l.errs = some ch) (hacc : ch.accepts = true) :
    l.send (some e) w = ({ w with sent := w.sent ++ [e] }, .returned (some e)) := by
  simp [WindowsLogger.send, hch, hacc]

theorem send_some_refusing (l : WindowsLogger) (ch : Chan) (e : GoError) (w : World)
    (hch : l.errs = some ch) (hacc : ch.accepts = false) :
    l.send (some e) w = (w, .blocked) := by
  simp [WindowsLogger.send, hch, hacc]

theorem New_errs (name : String) (p : Platform) (w w1 : World) (l : WindowsLogger)
    (h : New name p w = (w1, .returned l)) :
    l.ev = { source := name } ∧
      l.errs = some { capacity := 0, queued := 0, receiverReady := false } := by
  unfold New platformCall at h
  cases h1 : p w.calls (.install name
      (Severity.Error.mask ||| Severity.Warning.mask ||| Severity.Info.mask)) with
  | some e => simp [h1] at h
  | none =>
    cases h2 : p (w.calls ++ [.install name
        (Severity.Error.mask ||| Severity.Warning.mask ||| Severity.Info.mask)])
        (.openSource name) with
    | some e => simp [h1, h2] at h
    | none =>
      simp [h1, h2] at h
      obtain ⟨_, rfl⟩ := h
      exact ⟨rfl, rfl⟩

/-! ## Claims about the emission operations -/

/-- C1: for each of the twelve emission operations, when the platform write
the operation makes (the call `c` it adds to the trace) returns the error `e`
and the logger has a channel attached with a receiver ready, the operation
returns `e` and exactly one error, `e`, is sent on the channel. -/
theorem emit_failure_returned_and_forwarded (op : Emit) (l : WindowsLogger) (p : Platform)
    (w : World) (ch : Chan) (c : PlatformCall) (e : GoError)
    (hch : l.errs = some ch) (hready : ch.receiverReady = true)
    (hcall : (op.run l p w).1.calls = w.calls ++ [c]) (hfail : p w.calls c = some e) :
    (op.run l p w).2 = .returned (some e) ∧ (op.run l p w).1.sent = w.sent ++ [e] := by
  obtain ⟨eid, msg, h⟩ := run_eq_send op l p w
  rw [h, send_calls] at hcall
  have hc : PlatformCall.write l.ev.source op.severity eid msg = c := by
    simpa using hcall
  rw [h, hc, hfail, send_some_accepting l ch e _ hch (by simp [Chan.accepts, hready])]
  exact ⟨rfl, rfl⟩

/-- The theorem of C1 at `Error("disk full")` on source `svc1`, with a receiver
ready and a platform that answers `access denied`. -/
theorem emit_failure_returned_and_forwarded_witness :
    ((Emit.Error [.str "disk full"]).run
        { ev := { source := "svc1" },
          errs := some { capacity := 0, queued := 0, receiverReady := true } }
        (fun _ _ => some "access denied") World.init).2 = .returned (some "access denied") ∧
      ((Emit.Error [.str "disk full"]).run
        { ev := { source := "svc1" },
          errs := some { capacity := 0, queued := 0, receiverReady := true } }
        (fun _ _ => some "access denied") World.init).1.sent = World.init.sent ++ ["access denied"] :=
  emit_failure_returned_and_forwarded (.Error [.str "disk full"])
    { ev := { source := "svc1" },
      errs := some { capacity := 0, queued := 0, receiverReady := true } }
    (fun _ _ => some "access denied") World.init
    { capacity := 0, queued := 0, receiverReady := true }
    (.write "svc1" .Error 3 (Sprint [.str "disk full"])) "access denied" rfl rfl rfl rfl

/-- C2, on the code: for a logger produced by `New` and each of the twelve
operations, when the platform write the operation makes returns an error the
operation does not return: the send on the channel `New` attached, which has
no receiver, parks the caller, and nothing is sent. -/
theorem New_logger_blocks_on_failed_write (name : String) (p : Platform) (w0 w1 : World)
    (l : WindowsLogger) (hnew : New name p w0 = (w1, .returned l))
    (op : Emit) (w : World) (c : PlatformCall) (e : GoError)
    (hcall : (op.run l p w).1.calls = w.calls ++ [c]) (hfail : p w.calls c = some e) :
    (op.run l p w).2 = .blocked ∧ (op.run l p w).1.sent = w.sent := by
  obtain ⟨eid, msg, h⟩ := run_eq_send op l p w
  rw [h, send_calls] at hcall
  have hc : PlatformCall.write l.ev.source op.severity eid msg = c := by
    simpa using hcall
  rw [h, hc, hfail, send_some_refusing l _ e _ (New_errs name p w0 w1 l hnew).2 rfl]
  exact ⟨rfl, rfl⟩

/-- The theorem of C2 at the logger `New("svc1")` returns and the call
`Error("boot")`, on the platform whose writes fail. -/
theorem New_logger_blocks_on_failed_write_witness :
    ((Emit.Error [.str "boot"]).run
        { ev := { source := "svc1" },
          errs := some { capacity := 0, queued := 0, receiverReady := false } }
        failingWrites (New "svc1" failingWrites World.init).1).2 = .blocked ∧
      ((Emit.Error [.str "boot"]).run
        { ev := { source := "svc1" },
          errs := some { capacity := 0, queued := 0, receiverReady := false } }
        failingWrites (New "svc1" failingWrites World.init).1).1.sent
        = (New "svc1" failingWrites World.init).1.sent :=
  New_logger_blocks_on_failed_write "svc1" failingWrites World.init
    (New "svc1" failingWrites World.init).1
    { ev := { source := "svc1" },
      errs := some { capacity := 0, queued := 0, receiverReady := false } } rfl
    (.Error [.str "boot"]) (New "svc1" failingWrites World.init).1
    (.write "svc1" .Error 3 (Sprint [.str "boot"])) "access denied" rfl rfl

theorem eventIDs_append_write (calls : List PlatformCall) (source : String) (sev : Severity)
    (eid : Nat) (msg : String) :
    eventIDs (calls ++ [.write source sev eid msg]) = eventIDs calls ++ [eid] := by
  simp [eventIDs, List.filterMap_append]

/-- C3: whatever the arguments, the platform and the trace so far, the one
event identifier an operation adds to the trace is 3 for `Error` and `Errorf`,
2 for `Warning` and `Warningf`, 1 for `Info` and `Infof`, and the given
`eventID` for `NError`, `NWarning`, `NInfo`, `NErrorf`, `NWarningf` and
`NInfof`. -/
theorem emit_event_identifiers (l : WindowsLogger) (p : Platform) (w : World) :
    (∀ v, eventIDs (l.Error v p w).1.calls = eventIDs w.calls ++ [3]) ∧
    (∀ format a, eventIDs (l.Errorf format a p w).1.calls = eventIDs w.calls ++ [3]) ∧
    (∀ v, eventIDs (l.Warning v p w).1.calls = eventIDs w.calls ++ [2]) ∧
    (∀ format a, eventIDs (l.Warningf format a p w).1.calls = eventIDs w.calls ++ [2]) ∧
    (∀ v, eventIDs (l.Info v p w).1.calls = eventIDs w.calls ++ [1]) ∧
    (∀ format a, eventIDs (l.Infof format a p w).1.calls = eventIDs w.calls ++ [1]) ∧
    (∀ eventID v, eventIDs (l.NError eventID v p w).1.calls = eventIDs w.calls ++ [eventID]) ∧
    (∀ eventID v, eventIDs (l.NWarning eventID v p w).1.calls = eventIDs w.calls ++ [eventID]) ∧
    (∀ eventID v, eventIDs (l.NInfo eventID v p w).1.calls = eventIDs w.calls ++ [eventID]) ∧
    (∀ eventID format a,
      eventIDs (l.NErrorf eventID format a p w).1.calls = eventIDs w.calls ++ [eventID]) ∧
    (∀ eventID format a,
      eventIDs (l.NWarningf eventID format a p w).1.calls = eventIDs w.calls ++ [eventID]) ∧
    (∀ eventID format a,
      eventIDs (l.NInfof eventID format a p w).1.calls = eventIDs w.calls ++ [eventID]) := by
  refine ⟨?_, ?_, ?_, ?_, ?_, ?_, ?_, ?_, ?_, ?_, ?_, ?_⟩ <;> intros <;>
    simp only [WindowsLogger.Error, WindowsLogger.Errorf, WindowsLogger.Warning,
      WindowsLogger.Warningf, WindowsLogger.Info, WindowsLogger.Infof, WindowsLogger.NError,
      WindowsLogger.NWarning, WindowsLogger.NInfo, WindowsLogger.NErrorf,
      WindowsLogger.NWarningf, WindowsLogger.NInfof, Log.Error, Log.Warning, Log.Info,
      platformCall, send_calls, eventIDs_append_write]

/-- C10: for each of the twelve operations, every argument list and every
platform (so whether the write succeeds or fails), one call of the operation
adds exactly one platform call to the trace, a write to the logger's source at
the severity of the operation's family. -/
theorem emit_writes_exactly_once (op : Emit) (l : WindowsLogger) (p : Platform) (w : World) :
    ∃ eid msg,
      (op.run l p w).1.calls = w.calls ++ [.write l.ev.source op.severity eid msg] :=
  run_calls op l p w

/-! ## Claims about the configuration -/

/-- C4: when the file loads and `flag.Parse()` returns with the six flags
holding `flags`, `initConfig` returns a configuration in which each of Name,
Keyword, Hostname, Type, Id and Msg is the flag's value when the flag is not
empty and the file's value when it is. -/
theorem initConfig_merge (file : Config) (flags : Flags) :
    ∃ c, initConfig (.ok file) (.parsed flags) = .returned c ∧
      ((flags.name ≠ "" → c.Name = flags.name) ∧ (flags.name = "" → c.Name = file.Name)) ∧
      ((flags.keyword ≠ "" → c.Keyword = flags.keyword) ∧
        (flags.keyword = "" → c.Keyword = file.Keyword)) ∧
      ((flags.hostname ≠ "" → c.Hostname = flags.hostname) ∧
        (flags.hostname = "" → c.Hostname = file.Hostname)) ∧
      ((flags.types ≠ "" → c.Type_ = flags.types) ∧
        (flags.types = "" → c.Type_ = file.Type_)) ∧
      ((flags.id ≠ "" → c.Id = flags.id) ∧ (flags.id = "" → c.Id = file.Id)) ∧
      ((flags.msg ≠ "" → c.Msg = flags.msg) ∧ (flags.msg = "" → c.Msg = file.Msg)) := by
  refine ⟨_, rfl, ?_⟩
  by_cases h1 : flags.name = "" <;> by_cases h2 : flags.keyword = "" <;>
    by_cases h3 : flags.hostname = "" <;> by_cases h4 : flags.types = "" <;>
    by_cases h5 : flags.id = "" <;> by_cases h6 : flags.msg = "" <;>
    simp [h1, h2, h3, h4, h5, h6]

/-- C9: when decoding the configuration file fails, `main` ends the process
through the fatal path with status 1, which is not 0, and the trace of
platform calls is empty. -/
theorem main_config_failure (env : Env) (e : GoError) (hfile : env.file = .error e) :
    (main env).2 = .exited 1 ∧ exitStatus (main env).2 ≠ some 0 ∧ (main env).1.calls = [] := by
  simp [main, initConfig, hfile, exitStatus, World.init]

/-- The theorem of C9 at a run whose `config.toml` is missing. -/
theorem main_config_failure_witness :
    (main missingFileEnv).2 = .exited 1 ∧ exitStatus (main missingFileEnv).2 ≠ some 0 ∧
      (main missingFileEnv).1.calls = [] :=
  main_config_failure missingFileEnv _ rfl

/-! ## The message formatter -/

theorem Format_stamp (t : Time) :
    t.Format "2006 Jan 02 15:04:05" = String.mk t.stamp := by
  simp [Time.Format, Time.appendFormat, stdAt, startsWith, Time.chunk, Time.stamp,
    startsWithLowerCase]

theorem Format_layout (t : Time) :
    (t.Format "%s 2006 Jan 02 15:04:05 %s %s %s %s").toList
      = '%' :: 's' :: ' ' :: (t.stamp ++ " %s %s %s %s".toList) := by
  simp [Time.Format, Time.appendFormat, stdAt, startsWith, Time.chunk, Time.stamp,
    startsWithLowerCase]

theorem digitChar_ne_percent (d : Nat) (h : d < 10) : Nat.digitChar d ≠ '%' := by
  interval_cases d <;> decide

theorem toDigitsCore_no_percent (fuel : Nat) :
    ∀ (n : Nat) (ds : List Char), '%' ∉ ds → '%' ∉ Nat.toDigitsCore 10 fuel n ds := by
  induction fuel with
  | zero => intro n ds h; simpa [Nat.toDigitsCore] using h
  | succ fuel ih =>
    intro n ds h
    have hd : '%' ∉ Nat.digitChar (n % 10) :: ds := by
      intro hmem
      rcases List.mem_cons.1 hmem with h1 | h1
      · exact digitChar_ne_percent (n % 10) (Nat.mod_lt _ (by decide)) h1.symm
      · exact h h1
    unfold Nat.toDigitsCore
    by_cases h0 : n / 10 = 0
    · simpa [h0] using hd
    · simpa [h0] using ih (n / 10) _ hd

theorem appendInt_no_percent (x : Int) (width : Nat) : '%' ∉ appendInt x width := by
  have hdigits : '%' ∉ Nat.toDigits 10 x.natAbs :=
    toDigitsCore_no_percent _ _ [] (List.not_mem_nil _)
  unfold appendInt
  simp only [List.mem_append, not_or]
  refine ⟨⟨?_, ?_⟩, hdigits⟩
  · split <;> simp
  · intro h
    exact absurd (List.eq_of_mem_replicate h) (by decide)

theorem monthName_no_percent (m : Month) : '%' ∉ m.name.take 3 := by
  cases m <;> decide

theorem stamp_no_percent (t : Time) : '%' ∉ t.stamp := by
  have h4 := appendInt_no_percent t.year 4
  have hd := appendInt_no_percent t.day 2
  have hh := appendInt_no_percent t.hour 2
  have hm := appendInt_no_percent t.minute 2
  have hs := appendInt_no_percent t.second 2
  have hn := monthName_no_percent t.month
  simp only [Time.stamp, List.mem_append, List.mem_cons, not_or]
  refine ⟨⟨⟨⟨⟨h4, by decide, hn⟩, by decide, hd⟩, by decide, hh⟩, by decide, hm⟩, by decide, hs⟩

theorem doPrintf_literal (lit : List Char) (h : '%' ∉ lit) (rest : List Char)
    (a : List Value) :
    doPrintf (lit ++ rest) false a = lit ++ doPrintf rest false a := by
  induction lit with
  | nil => rfl
  | cons c lit ih =>
    have hc : c ≠ '%' := fun hc => h (by simp [hc])
    have hl : '%' ∉ lit := fun hl => h (List.mem_cons_of_mem _ hl)
    simp [doPrintf, hc, ih hl]

theorem doPrintf_string (s : String) (rest : List Char) (a : List Value) :
    doPrintf ('%' :: 's' :: rest) false (.str s :: a) = s.toList ++ doPrintf rest false a := by
  simp [doPrintf, printArg, Value.text]

/-- What `NewMsg` returns, for every operand, configuration (its fields may
hold `%` verbs or layout tokens) and clock reading: the operand `keyword`, the
clock reading as four-digit year, short month name, two-digit day and
24-hour time (`Time.stamp`), then Hostname, Type, Id and Msg, with single
spaces in between.  `c.Keyword` is not part of it. -/
theorem NewMsg_eq (keyword : String) (c : Config) (now : Time) :
    NewMsg keyword c now =
      keyword ++ " " ++ String.mk now.stamp ++ " " ++ c.Hostname ++ " "
        ++ c.Type_ ++ " " ++ c.Id ++ " " ++ c.Msg := by
  apply String.ext
  simp only [NewMsg, Sprintf, Format_layout, String.data_append]
  have hspace : ∀ rest a, doPrintf (' ' :: rest) false a = ' ' :: doPrintf rest false a := by
    intro rest a
    simp [doPrintf]
  rw [doPrintf_string, hspace, doPrintf_literal now.stamp (stamp_no_percent now)]
  simp [doPrintf, printArg, Value.text, extraArgs, String.toList]

/-- C5, on the code: with Keyword `KW`, Hostname `host`, Type `CRITICAL`, Id
`42` and Msg `boot` in the configuration and an empty `keyword` operand (the
`--keyword` flag not given), `NewMsg` returns ` 2026 Nov 04 09:05:07 host
CRITICAL 42 boot`, in which `KW` does not occur; and the result is the same
whatever the configuration holds as Keyword. -/
theorem NewMsg_does_not_print_Keyword :
    NewMsg "" fullConfig sampleTime = " 2026 Nov 04 09:05:07 host CRITICAL 42 boot" ∧
      ¬ ("KW".toList <:+: (NewMsg "" fullConfig sampleTime).toList) ∧
      ∀ k : String,
        NewMsg "" { fullConfig with Keyword := k } sampleTime = NewMsg "" fullConfig sampleTime := by
  refine ⟨by decide, by decide, fun k => rfl⟩

/-- A run of `NewMsg` on an operand and fields that hold verbs and layout
tokens: they come out as they went in. -/
theorem NewMsg_keeps_verbs_and_layout_tokens :
    NewMsg "100%s"
        { Name := "svc1", Keyword := "", Hostname := "Jan", Type_ := "%d", Id := "2006",
          Msg := "15:04 %v" } sampleTime
      = "100%s 2026 Nov 04 09:05:07 Jan %d 2006 15:04 %v" := by
  decide

/-! ## The message of the plain operations -/

theorem printArg_v (arg : Value) : printArg arg 'v' = arg.text := by
  cases arg <;> simp [printArg]

theorem doPrint_succ (l : List Value) :
    ∀ (prev : Bool) (n : Nat),
      doPrint l prev (n + 1) =
        match l with
        | [] => []
        | a :: _ => (if !a.isString && !prev then [' '] else []) ++ joinChars l := by
  induction l with
  | nil => intro prev n; rfl
  | cons a rest ih =>
    intro prev n
    cases rest with
    | nil => simp [doPrint, printArg_v, joinChars]
    | cons b rest =>
      rw [doPrint, ih a.isString (n + 1)]
      simp [printArg_v, joinChars, and_comm]

theorem Sprint_eq_joinOperands (v : List Value) : Sprint v = joinOperands v := by
  cases v with
  | nil => rfl
  | cons a rest =>
    cases rest with
    | nil => simp [Sprint, joinOperands, doPrint, printArg_v, joinChars]
    | cons b rest =>
      simp only [Sprint, joinOperands]
      rw [doPrint, doPrint_succ (b :: rest) a.isString 0]
      simp [printArg_v, joinChars, and_comm]

theorem Sprint_single_string (s : String) : Sprint [.str s] = s := by
  simp [Sprint, doPrint, printArg_v, Value.text]

/-- C6 as stated fails: `Error(1, 2)` hands the message `1 2` to the platform
write, while the renderings of 1 and 2 with nothing in between are `12`. -/
theorem Error_separates_neighbouring_numbers :
    (WindowsLogger.Error { ev := { source := "svc1" }, errs := none } [.int 1, .int 2]
        (fun _ _ => none) World.init).1.calls = [.write "svc1" .Error 3 "1 2"] ∧
      concatTexts [.int 1, .int 2] = "12" ∧
      (WindowsLogger.Error { ev := { source := "svc1" }, errs := none } [.int 1, .int 2]
        (fun _ _ => none) World.init).1.calls
        ≠ [.write "svc1" .Error 3 (concatTexts [.int 1, .int 2])] := by
  refine ⟨by decide, by decide, by decide⟩

/-- C6 as amended: for every list of values passed to `Error`, `Warning`,
`Info`, `NError`, `NWarning` or `NInfo`, the message handed to the platform
write is the renderings of the values one after the other, with one space
between two neighbouring values exactly when neither is a string and nothing
between them otherwise. -/
theorem plain_emit_message (l : WindowsLogger) (p : Platform) (w : World) (v : List Value) :
    (l.Error v p w).1.calls = w.calls ++ [.write l.ev.source .Error 3 (joinOperands v)] ∧
    (l.Warning v p w).1.calls = w.calls ++ [.write l.ev.source .Warning 2 (joinOperands v)] ∧
    (l.Info v p w).1.calls = w.calls ++ [.write l.ev.source .Info 1 (joinOperands v)] ∧
    (∀ eventID, (l.NError eventID v p w).1.calls
      = w.calls ++ [.write l.ev.source .Error eventID (joinOperands v)]) ∧
    (∀ eventID, (l.NWarning eventID v p w).1.calls
      = w.calls ++ [.write l.ev.source .Warning eventID (joinOperands v)]) ∧
    (∀ eventID, (l.NInfo eventID v p w).1.calls
      = w.calls ++ [.write l.ev.source .Info eventID (joinOperands v)]) := by
  refine ⟨?_, ?_, ?_, ?_, ?_, ?_⟩ <;> intros <;>
    simp only [WindowsLogger.Error, WindowsLogger.Warning, WindowsLogger.Info,
      WindowsLogger.NError, WindowsLogger.NWarning, WindowsLogger.NInfo, Log.Error,
      Log.Warning, Log.Info, platformCall, send_calls, Sprint_eq_joinOperands]

/-! ## Claims about `main` -/

theorem Close_calls (name : String) (p : Platform) (w : World) :
    (Close name p w).1.calls = w.calls ++ [.remove name] := by
  unfold Close platformCall
  cases p w.calls (.remove name) <;> rfl

theorem initConfig_returns (file : Config) (flags : Flags) :
    ∃ c, initConfig (.ok file) (.parsed flags) = .returned c :=
  ⟨_, rfl⟩

/-- C7 as stated fails: in the scenario Name `svc1`, Msg `boot` run with `-h`
on the command line, the configuration file loads and every platform call
would succeed, yet `flag.Parse()` ends the process inside `initConfig`
(status 0) and no platform call is made. -/
theorem main_help_makes_no_platform_call :
    svc1HelpEnv.file = .ok svc1Config ∧
      (∀ calls call, svc1HelpEnv.platform calls call = none) ∧
      (main svc1HelpEnv).1.calls = [] ∧ (main svc1HelpEnv).2 = .exited 0 ∧
      (main svc1HelpEnv).1.calls ≠
        [.install "svc1" 7, .openSource "svc1",
          .write "svc1" .Error 3 (NewMsg "" svc1Config sampleTime), .remove "svc1"] := by
  refine ⟨rfl, fun _ _ => rfl, rfl, rfl, ?_⟩
  have h : (main svc1HelpEnv).1.calls = [] := rfl
  rw [h]
  exact fun h0 => List.noConfusion h0

/-- C7 as amended: in a run of `main` in which the configuration file loads,
`flag.Parse()` returns (the command line parses and does not ask for help)
and every platform call succeeds, `initConfig` returns a configuration `c` and
the platform calls are, in order and with no other call: install `c.Name` with
a mask that allows Error, Warning and Info; open `c.Name`; one write at Error
severity with identifier 3 whose message is what `NewMsg` returns, which holds
`c.Msg`; remove `c.Name`.  `main` then returns, so the process exits with
status 0. -/
theorem main_success_trace (env : Env) (file : Config) (flags : Flags)
    (hfile : env.file = .ok file) (hflags : env.flags = .parsed flags)
    (hok : ∀ calls call, env.platform calls call = none) :
    ∃ c, initConfig env.file env.flags = .returned c ∧
      (main env).1.calls =
        [.install c.Name 7, .openSource c.Name,
          .write c.Name .Error 3 (NewMsg env.keyword c env.now), .remove c.Name] ∧
      (allows 7 .Error = true ∧ allows 7 .Warning = true ∧ allows 7 .Info = true) ∧
      (∃ a b : String, NewMsg env.keyword c env.now = a ++ c.Msg ++ b) ∧
      (main env).2 = .returned () ∧ exitStatus (main env).2 = some 0 := by
  obtain ⟨c, hc⟩ := initConfig_returns file flags
  rw [← hfile, ← hflags] at hc
  have hmain : main env =
      ({ calls := [.install c.Name 7, .openSource c.Name,
          .write c.Name .Error 3 (NewMsg env.keyword c env.now), .remove c.Name], sent := [] },
        .returned ()) := by
    simp [main, hc, New, Close, WindowsLogger.Error, Log.Error, WindowsLogger.send,
      platformCall, hok, World.init, Sprint_single_string, Severity.mask]
  refine ⟨c, hc, by rw [hmain], ⟨by decide, by decide, by decide⟩, ?_, by rw [hmain],
    by rw [hmain]; rfl⟩
  refine ⟨env.keyword ++ " " ++ String.mk env.now.stamp ++ " " ++ c.Hostname ++ " "
        ++ c.Type_ ++ " " ++ c.Id ++ " ", "", ?_⟩
  rw [NewMsg_eq]
  apply String.ext
  simp [String.data_append]

/-- The theorem of C7 at the scenario Name `svc1`, Msg `boot`, no flags. -/
theorem main_success_trace_witness :
    ∃ c, initConfig svc1Env.file svc1Env.flags = .returned c ∧
      (main svc1Env).1.calls =
        [.install c.Name 7, .openSource c.Name,
          .write c.Name .Error 3 (NewMsg svc1Env.keyword c svc1Env.now), .remove c.Name] ∧
      (allows 7 .Error = true ∧ allows 7 .Warning = true ∧ allows 7 .Info = true) ∧
      (∃ a b : String, NewMsg svc1Env.keyword c svc1Env.now = a ++ c.Msg ++ b) ∧
      (main svc1Env).2 = .returned () ∧ exitStatus (main svc1Env).2 = some 0 :=
  main_success_trace svc1Env svc1Config noFlags rfl rfl (fun _ _ => rfl)

/-- The run of the scenario Name `svc1`, Msg `boot`, no flags, every platform
call succeeding, written out. -/
theorem main_svc1_trace :
    main svc1Env =
      ({ calls := [.install "svc1" 7, .openSource "svc1",
          .write "svc1" .Error 3 " 2026 Nov 04 09:05:07    boot", .remove "svc1"],
         sent := [] }, .returned ()) := by
  decide

/-- C8, on the code: in a run of `main` in which `New(c.Name)` succeeds
(install and open succeed) and the Error-severity write fails, `main` is
parked in `send` on the channel `New` attached: it does not return, the trace
ends with the write, and `Close` is not invoked (no call removes a source). -/
theorem main_failed_write_skips_Close (env : Env) (c : Config) (e : GoError)
    (hc : initConfig env.file env.flags = .returned c)
    (hinstall : env.platform [] (.install c.Name 7) = none)
    (hopen : env.platform [.install c.Name 7] (.openSource c.Name) = none)
    (hwrite : env.platform [.install c.Name 7, .openSource c.Name]
      (.write c.Name .Error 3 (NewMsg env.keyword c env.now)) = some e) :
    (main env).2 = .blocked ∧
      (main env).1.calls =
        [.install c.Name 7, .openSource c.Name, .write c.Name .Error 3 (NewMsg env.keyword c env.now)] ∧
      ∀ name, removals name (main env).1.calls = 0 := by
  have hmain : main env =
      ({ calls := [.install c.Name 7, .openSource c.Name,
          .write c.Name .Error 3 (NewMsg env.keyword c env.now)], sent := [] }, .blocked) := by
    simp [main, hc, New, WindowsLogger.Error, Log.Error, WindowsLogger.send,
      platformCall, hinstall, hopen, hwrite, World.init, Sprint_single_string, Severity.mask,
      Chan.accepts]
  refine ⟨by rw [hmain], by rw [hmain], ?_⟩
  intro name
  rw [hmain]
  simp [removals]

/-- The theorem of C8 at the scenario Name `svc1`, Msg `boot`, no flags, on the
platform whose writes fail. -/
theorem main_failed_write_skips_Close_witness :
    (main svc1FailingEnv).2 = .blocked ∧
      (main svc1FailingEnv).1.calls =
        [.install "svc1" 7, .openSource "svc1",
          .write "svc1" .Error 3 (NewMsg "" svc1Config sampleTime)] ∧
      ∀ name, removals name (main svc1FailingEnv).1.calls = 0 :=
  main_failed_write_skips_Close svc1FailingEnv svc1Config "access denied" rfl rfl rfl rfl

/-- The exit status on the failed-write path: the runtime ends the parked
process with status 2. -/
theorem main_failed_write_exit_status (env : Env) (c : Config) (e : GoError)
    (hc : initConfig env.file env.flags = .returned c)
    (hinstall : env.platform [] (.install c.Name 7) = none)
    (hopen : env.platform [.install c.Name 7] (.openSource c.Name) = none)
    (hwrite : env.platform [.install c.Name 7, .openSource c.Name]
      (.write c.Name .Error 3 (NewMsg env.keyword c env.now)) = some e) :
    exitStatus (main env).2 = some 2 := by
  have hmain : (main env).2 = .blocked := by
    simp [main, hc, New, WindowsLogger.Error, Log.Error, WindowsLogger.send,
      platformCall, hinstall, hopen, hwrite, World.init, Sprint_single_string, Severity.mask,
      Chan.accepts]
  rw [hmain]
  rfl

/-- The other half of C8: when `New` succeeds and the write succeeds, `Close`
is invoked exactly once, whether or not the removal itself succeeds. -/
theorem main_closes_once_after_successful_write (env : Env) (c : Config)
    (hc : initConfig env.file env.flags = .returned c)
    (hinstall : env.platform [] (.install c.Name 7) = none)
    (hopen : env.platform [.install c.Name 7] (.openSource c.Name) = none)
    (hwrite : env.platform [.install c.Name 7, .openSource c.Name]
      (.write c.Name .Error 3 (NewMsg env.keyword c env.now)) = none) :
    removals c.Name (main env).1.calls = 1 := by
  have hmain : main env =
      Close c.Name env.platform
        { calls := [.install c.Name 7, .openSource c.Name,
            .write c.Name .Error 3 (NewMsg env.keyword c env.now)], sent := [] } := by
    simp [main, hc, New, WindowsLogger.Error, Log.Error, WindowsLogger.send,
      platformCall, hinstall, hopen, hwrite, World.init, Sprint_single_string, Severity.mask]
  rw [hmain, Close_calls]
  simp [removals]

end Evlog
